import Mathlib

/-!
Verification of the supervisor-routing workflow of the `agentbuild`
repository (`backend/langgraph_agents.py` and `backend/app.py`).

The LLM client is external: every chain built from a prompt and the
client is modelled as an oracle function from the input text to a result.
Chains that may fail on transport/HTTP errors are oracles of type
`String → Except String String` (the `String` error is `str(e)` of the
raised exception).  Python strings are modelled as Lean `String`s;
`str.strip()` and `str.upper()` are modelled over the ASCII range, which
covers every string the workflow itself introduces.
-/

namespace Agentbuild

/-- Python `str.isspace` characters in the ASCII range: the set stripped
by `str.strip()` with no argument. -/
def pyIsSpace (c : Char) : Bool :=
  c = ' ' || c = '\t' || c = '\n' || c = '\r' || c = '\x0b' || c = '\x0c'

/-- Python `str.strip()`: drop leading and trailing whitespace. -/
def pyStrip (s : String) : String :=
  ⟨((s.data.dropWhile pyIsSpace).reverse.dropWhile pyIsSpace).reverse⟩

/-- Python `str.upper()` (ASCII range). -/
def pyUpper (s : String) : String :=
  ⟨s.data.map Char.toUpper⟩

/-- A LangChain message: `HumanMessage`/`AIMessage` etc., reduced to the
role tag and the `content` field, the only parts the workflow reads. -/
structure Message where
  role : String
  content : String
deriving DecidableEq, Repr

/-- Model of `AgentState` (langgraph_agents.py, lines 30-34): the state that flows
through the graph.  All three keys are set by `initial_state`, so they are
total fields here. -/
structure AgentState where
  messages : List Message
  next_agent : String
  final_response : String
deriving DecidableEq, Repr

/-- The partial state update a LangGraph node returns (a Python dict with
a subset of the state's keys). -/
structure StateUpdate where
  messages : Option (List Message)
  next_agent : Option String
  final_response : Option String
deriving DecidableEq, Repr

/-- How LangGraph merges a node's returned update into the state:
`messages` is annotated with the `add_messages` reducer, which appends the
returned messages (fresh messages carry no matching ids, so no in-place
replacement happens); the plain fields are overwritten when present. -/
def applyUpdate (s : AgentState) (u : StateUpdate) : AgentState :=
  { messages := s.messages ++ (u.messages.getD [])
    next_agent := u.next_agent.getD s.next_agent
    final_response := u.final_response.getD s.final_response }

/-- Model of `state["messages"][-1].content`.  Python raises `IndexError` on an
empty list; every state the workflow builds has at least one message, so
the empty case (returning `""` here) is never reached. -/
def lastContent (msgs : List Message) : String :=
  match msgs.getLast? with
  | some m => m.content
  | none => ""

/-- An LLM-backed chain: one blocking call that returns text or fails
with a transport/HTTP error. -/
def LLM : Type := String → Except String String

/-- Model of `valid_agents` (line 65). -/
def valid_agents : List String := ["SCIENTIST", "CREATIVE", "CODER"]

/-- Lines 63-67 of `supervisor_node`: `.strip().upper()` normalization of
the classifier's raw output, then the fallback to `"SCIENTIST"` when the
result is not in `valid_agents`. -/
def normalizeDecision (raw : String) : String :=
  let decision := pyUpper (pyStrip raw)
  if valid_agents.contains decision then decision else "SCIENTIST"

/-- Model of `supervisor_node` (lines 59-71): call the supervisor chain on the last
message's content, normalize the decision, and return the update
`{"next_agent": decision}`.  The `print` on line 69 is I/O only. -/
def supervisor_node (classify : LLM) (state : AgentState) :
    Except String StateUpdate := do
  let raw ← classify (lastContent state.messages)
  let decision := normalizeDecision raw
  pure { messages := none, next_agent := some decision, final_response := none }

/-- Model of `scientist_node` (lines 119-127): call the scientist chain on the last
message's content and return the glyph-prefixed `final_response` together
with one appended `AIMessage`. -/
def scientist_node (respond : LLM) (state : AgentState) :
    Except String StateUpdate := do
  let response ← respond (lastContent state.messages)
  pure { messages := some [{ role := "ai", content := response }]
         next_agent := none
         final_response := some ("🔬 " ++ response) }

/-- Model of `creative_node` (lines 130-138). -/
def creative_node (respond : LLM) (state : AgentState) :
    Except String StateUpdate := do
  let response ← respond (lastContent state.messages)
  pure { messages := some [{ role := "ai", content := response }]
         next_agent := none
         final_response := some ("🎨 " ++ response) }

/-- Model of `coder_node` (lines 141-149). -/
def coder_node (respond : LLM) (state : AgentState) :
    Except String StateUpdate := do
  let response ← respond (lastContent state.messages)
  pure { messages := some [{ role := "ai", content := response }]
         next_agent := none
         final_response := some ("💻 " ++ response) }

/-- Model of `route_to_agent` (lines 152-160): upper-case `state["next_agent"]`
(defaulting to `""` if absent — the field is total here) and look it up in
the routing dict, with `"scientist"` as the `.get` default. -/
def route_to_agent (state : AgentState) : String :=
  let next_agent := pyUpper state.next_agent
  if next_agent = "SCIENTIST" then "scientist"
  else if next_agent = "CREATIVE" then "creative"
  else if next_agent = "CODER" then "coder"
  else "scientist"

/-- The nodes of the compiled graph, `create_agent_graph` (lines 163-190),
plus the builtin `START` and `END` endpoints. -/
inductive Node where
  | START
  | supervisor
  | scientist
  | creative
  | coder
  | END_
deriving DecidableEq, Repr

/-- The oracles standing for the four LLM-backed chains the graph's nodes
build (`create_supervisor` and the three `create_*_agent` factories, each
composed with the shared client). -/
structure Oracles where
  classify : LLM
  scientistLLM : LLM
  creativeLLM : LLM
  coderLLM : LLM

/-- The conditional-edge mapping `{"scientist": "scientist", "creative":
"creative", "coder": "coder"}` of `add_conditional_edges` (lines 176-184);
a branch key outside the mapping would be a LangGraph error (`none`). -/
def branchTarget (branch : String) : Option Node :=
  if branch = "scientist" then some .scientist
  else if branch = "creative" then some .creative
  else if branch = "coder" then some .coder
  else none

/-- The edge relation of the compiled graph: `START → supervisor`, the
conditional edges out of `supervisor` (evaluated on the state after the
supervisor's update was merged), and each specialist `→ END`. -/
def successor (n : Node) (state : AgentState) : Option Node :=
  match n with
  | .START => some .supervisor
  | .supervisor => branchTarget (route_to_agent state)
  | .scientist => some .END_
  | .creative => some .END_
  | .coder => some .END_
  | .END_ => none

/-- Execute one node: run its function and merge the returned update with
`applyUpdate`.  `START`/`END` are structural endpoints and do nothing. -/
def execNode (o : Oracles) (n : Node) (s : AgentState) :
    Except String AgentState :=
  match n with
  | .supervisor => (supervisor_node o.classify s).map (applyUpdate s)
  | .scientist => (scientist_node o.scientistLLM s).map (applyUpdate s)
  | .creative => (creative_node o.creativeLLM s).map (applyUpdate s)
  | .coder => (coder_node o.coderLLM s).map (applyUpdate s)
  | .START => .ok s
  | .END_ => .ok s

/-- How many calls a node makes to the LLM client, split as
(classification calls, specialist calls): each node's chain makes exactly
one blocking request when it runs. -/
def nodeCalls (n : Node) : Nat × Nat :=
  match n with
  | .supervisor => (1, 0)
  | .scientist => (0, 1)
  | .creative => (0, 1)
  | .coder => (0, 1)
  | .START => (0, 0)
  | .END_ => (0, 0)

/-- Result of one graph invocation, instrumented for verification with
the ordered list of executed (non-endpoint) nodes and the LLM-client call
counts (classification calls, specialist calls).  A raised exception
aborts the run: `final` is the error and nothing after the failing node
executes. -/
structure RunResult where
  final : Except String AgentState
  trace : List Node
  classifyCalls : Nat
  specialistCalls : Nat
deriving Repr

/-- The LangGraph executor on this acyclic graph: from the current node,
follow the (possibly conditional) edge, execute the target, and continue.
Reaching `END` (no successor) stops with the current state.  The graph has
no cycles, so any fuel ≥ 4 is enough from `START`. -/
def runGraph (o : Oracles) : Nat → Node → AgentState → RunResult
  | 0, _, s => ⟨.ok s, [], 0, 0⟩
  | fuel + 1, n, s =>
    match successor n s with
    | none => ⟨.ok s, [], 0, 0⟩
    | some .END_ => ⟨.ok s, [], 0, 0⟩
    | some next =>
      match execNode o next s with
      | .error e => ⟨.error e, [next], (nodeCalls next).1, (nodeCalls next).2⟩
      | .ok s2 =>
        let r := runGraph o fuel next s2
        ⟨r.final, next :: r.trace,
          (nodeCalls next).1 + r.classifyCalls,
          (nodeCalls next).2 + r.specialistCalls⟩

/-- Model of `agent_graph.invoke(initial_state)` (line 213), instrumented. -/
def invokeGraph (o : Oracles) (init : AgentState) : RunResult :=
  runGraph o 4 .START init

/-- The `initial_state` dict of `chat_with_agents` (lines 207-211). -/
def initialState (user_message : String) : AgentState :=
  { messages := [{ role := "human", content := user_message }]
    next_agent := ""
    final_response := "" }

/-- The dict `{agent_used, response}` returned by `chat_with_agents`. -/
structure ChatResult where
  agent_used : String
  response : String
deriving DecidableEq, Repr

/-- The invocation `chat_with_agents` performs, kept separately so that
theorems can inspect its trace and call counts. -/
def chatInvocation (o : Oracles) (user_message : String) : RunResult :=
  invokeGraph o (initialState user_message)

/-- Model of `chat_with_agents` (lines 197-218): build the initial state, invoke
the graph, and return `{"agent_used": ..., "response": ...}`.  The
`result.get` defaults (`"unknown"`, `"No response generated"`) are
unreachable because `initial_state` sets both keys; an exception raised
inside a node propagates out of `invoke` uncaught. -/
def chat_with_agents (o : Oracles) (user_message : String) :
    Except String ChatResult :=
  match (chatInvocation o user_message).final with
  | .error e => .error e
  | .ok result => .ok { agent_used := result.next_agent
                        response := result.final_response }

/-- Outcome of the `POST /chat` FastAPI endpoint: a 200 body or an
`HTTPException` with its status code and detail. -/
inductive HttpResult where
  | ok (agent_used response : String)
  | httpError (status : Nat) (detail : String)
deriving DecidableEq, Repr

/-- Model of the `chat` handler in `app.py` (lines 66-84): reject a message that strips to
empty with 400 before touching the workflow, otherwise run
`chat_with_agents` and convert any exception into a 500 whose detail is
`str(e)`. -/
def chatEndpoint (o : Oracles) (message : String) : HttpResult :=
  if pyStrip message = "" then .httpError 400 "Message cannot be empty"
  else
    match chat_with_agents o message with
    | .ok r => .ok r.agent_used r.response
    | .error e => .httpError 500 e

/-- LLM-client calls made while serving one `POST /chat` request,
as (classification calls, specialist calls): zero when the 400 guard
fires, otherwise the calls of the single graph invocation. -/
def chatEndpointCalls (o : Oracles) (message : String) : Nat × Nat :=
  if pyStrip message = "" then (0, 0)
  else ((chatInvocation o message).classifyCalls,
        (chatInvocation o message).specialistCalls)

/-! ### Shared evaluation lemmas -/

theorem lastContent_initial (msg : String) :
    lastContent (initialState msg).messages = msg := rfl

theorem supervisor_node_ok (classify : LLM) (s : AgentState) (raw : String)
    (h : classify (lastContent s.messages) = .ok raw) :
    supervisor_node classify s =
      .ok ⟨none, some (normalizeDecision raw), none⟩ := by
  simp [supervisor_node, h]

theorem supervisor_node_error (classify : LLM) (s : AgentState) (e : String)
    (h : classify (lastContent s.messages) = .error e) :
    supervisor_node classify s = .error e := by
  simp [supervisor_node, h]

theorem normalizeDecision_mem (raw : String) :
    normalizeDecision raw = "SCIENTIST" ∨ normalizeDecision raw = "CREATIVE" ∨
      normalizeDecision raw = "CODER" := by
  unfold normalizeDecision
  dsimp only
  split_ifs with h
  · simpa [valid_agents, List.contains] using h
  · exact Or.inl rfl

@[simp] theorem route_next_scientist (s : AgentState)
    (h : s.next_agent = "SCIENTIST") : route_to_agent s = "scientist" := by
  unfold route_to_agent
  rw [h]
  decide

@[simp] theorem route_next_creative (s : AgentState)
    (h : s.next_agent = "CREATIVE") : route_to_agent s = "creative" := by
  unfold route_to_agent
  rw [h]
  decide

@[simp] theorem route_next_coder (s : AgentState)
    (h : s.next_agent = "CODER") : route_to_agent s = "coder" := by
  unfold route_to_agent
  rw [h]
  decide

theorem runGraph_start_error (o : Oracles) (fuel : Nat) (s : AgentState)
    (e : String) (h : execNode o .supervisor s = .error e) :
    runGraph o (fuel + 1) .START s = ⟨.error e, [.supervisor], 1, 0⟩ := by
  simp [runGraph, successor, nodeCalls, h]

theorem runGraph_start_ok (o : Oracles) (fuel : Nat) (s s2 : AgentState)
    (h : execNode o .supervisor s = .ok s2) :
    runGraph o (fuel + 1) .START s =
      ⟨(runGraph o fuel .supervisor s2).final,
       .supervisor :: (runGraph o fuel .supervisor s2).trace,
       1 + (runGraph o fuel .supervisor s2).classifyCalls,
       (runGraph o fuel .supervisor s2).specialistCalls⟩ := by
  simp [runGraph, successor, nodeCalls, h]

theorem runGraph_sup_scientist_error (o : Oracles) (fuel : Nat) (s : AgentState)
    (e : String) (hr : route_to_agent s = "scientist")
    (h : execNode o .scientist s = .error e) :
    runGraph o (fuel + 1) .supervisor s = ⟨.error e, [.scientist], 0, 1⟩ := by
  simp [runGraph, successor, branchTarget, nodeCalls, hr, h]

theorem runGraph_sup_scientist_ok (o : Oracles) (fuel : Nat) (s s2 : AgentState)
    (hr : route_to_agent s = "scientist")
    (h : execNode o .scientist s = .ok s2) :
    runGraph o (fuel + 1) .supervisor s =
      ⟨(runGraph o fuel .scientist s2).final,
       .scientist :: (runGraph o fuel .scientist s2).trace,
       (runGraph o fuel .scientist s2).classifyCalls,
       1 + (runGraph o fuel .scientist s2).specialistCalls⟩ := by
  simp [runGraph, successor, branchTarget, nodeCalls, hr, h]

theorem runGraph_sup_creative_error (o : Oracles) (fuel : Nat) (s : AgentState)
    (e : String) (hr : route_to_agent s = "creative")
    (h : execNode o .creative s = .error e) :
    runGraph o (fuel + 1) .supervisor s = ⟨.error e, [.creative], 0, 1⟩ := by
  simp [runGraph, successor, branchTarget, nodeCalls, hr, h]

theorem runGraph_sup_creative_ok (o : Oracles) (fuel : Nat) (s s2 : AgentState)
    (hr : route_to_agent s = "creative")
    (h : execNode o .creative s = .ok s2) :
    runGraph o (fuel + 1) .supervisor s =
      ⟨(runGraph o fuel .creative s2).final,
       .creative :: (runGraph o fuel .creative s2).trace,
       (runGraph o fuel .creative s2).classifyCalls,
       1 + (runGraph o fuel .creative s2).specialistCalls⟩ := by
  simp [runGraph, successor, branchTarget, nodeCalls, hr, h]

theorem runGraph_sup_coder_error (o : Oracles) (fuel : Nat) (s : AgentState)
    (e : String) (hr : route_to_agent s = "coder")
    (h : execNode o .coder s = .error e) :
    runGraph o (fuel + 1) .supervisor s = ⟨.error e, [.coder], 0, 1⟩ := by
  simp [runGraph, successor, branchTarget, nodeCalls, hr, h]

theorem runGraph_sup_coder_ok (o : Oracles) (fuel : Nat) (s s2 : AgentState)
    (hr : route_to_agent s = "coder")
    (h : execNode o .coder s = .ok s2) :
    runGraph o (fuel + 1) .supervisor s =
      ⟨(runGraph o fuel .coder s2).final,
       .coder :: (runGraph o fuel .coder s2).trace,
       (runGraph o fuel .coder s2).classifyCalls,
       1 + (runGraph o fuel .coder s2).specialistCalls⟩ := by
  simp [runGraph, successor, branchTarget, nodeCalls, hr, h]

theorem runGraph_scientist_end (o : Oracles) (fuel : Nat) (s : AgentState) :
    runGraph o (fuel + 1) .scientist s = ⟨.ok s, [], 0, 0⟩ := by
  simp [runGraph, successor]

theorem runGraph_creative_end (o : Oracles) (fuel : Nat) (s : AgentState) :
    runGraph o (fuel + 1) .creative s = ⟨.ok s, [], 0, 0⟩ := by
  simp [runGraph, successor]

theorem runGraph_coder_end (o : Oracles) (fuel : Nat) (s : AgentState) :
    runGraph o (fuel + 1) .coder s = ⟨.ok s, [], 0, 0⟩ := by
  simp [runGraph, successor]

theorem execNode_supervisor_ok (o : Oracles) (msg raw : String)
    (hcl : o.classify msg = .ok raw) :
    execNode o .supervisor (initialState msg) =
      .ok { messages := [⟨"human", msg⟩]
            next_agent := normalizeDecision raw
            final_response := "" } := by
  have hcl2 : o.classify (lastContent (initialState msg).messages) = .ok raw := by
    rw [lastContent_initial]; exact hcl
  show (supervisor_node o.classify (initialState msg)).map
      (applyUpdate (initialState msg)) = _
  rw [supervisor_node_ok o.classify (initialState msg) raw hcl2]
  simp [Except.map, applyUpdate, initialState]

theorem chatInvocation_classify_error (o : Oracles) (msg e : String)
    (h : o.classify msg = .error e) :
    chatInvocation o msg = ⟨.error e, [.supervisor], 1, 0⟩ := by
  have hs : execNode o .supervisor (initialState msg) = .error e := by
    have h2 : o.classify (lastContent (initialState msg).messages) = .error e := by
      rw [lastContent_initial]; exact h
    simp [execNode, supervisor_node_error o.classify (initialState msg) e h2, Except.map]
  show runGraph o (3 + 1) .START (initialState msg) = _
  rw [runGraph_start_error o 3 _ e hs]

theorem chatInvocation_scientist (o : Oracles) (msg raw : String)
    (hcl : o.classify msg = .ok raw)
    (hlabel : normalizeDecision raw = "SCIENTIST") :
    chatInvocation o msg =
      match o.scientistLLM msg with
      | .error e => ⟨.error e, [.supervisor, .scientist], 1, 1⟩
      | .ok resp =>
        ⟨.ok { messages := [⟨"human", msg⟩, ⟨"ai", resp⟩]
               next_agent := "SCIENTIST"
               final_response := "🔬 " ++ resp }
         , [.supervisor, .scientist], 1, 1⟩ := by
  have h1 := execNode_supervisor_ok o msg raw hcl
  rw [hlabel] at h1
  have hroute : route_to_agent
      { messages := [(⟨"human", msg⟩ : Message)]
        next_agent := "SCIENTIST", final_response := "" } = "scientist" :=
    route_next_scientist _ rfl
  show runGraph o (3 + 1) .START (initialState msg) = _
  rw [runGraph_start_ok o 3 _ _ h1]
  rcases hsc : o.scientistLLM msg with e | resp
  · have h2 : execNode o .scientist
        { messages := [(⟨"human", msg⟩ : Message)]
          next_agent := "SCIENTIST", final_response := "" } = .error e := by
      simp [execNode, scientist_node, lastContent, hsc, Except.map]
    rw [show (3:Nat) = 2 + 1 from rfl, runGraph_sup_scientist_error o 2 _ e hroute h2]
    simp
  · have h2 : execNode o .scientist
        { messages := [(⟨"human", msg⟩ : Message)]
          next_agent := "SCIENTIST", final_response := "" } =
        .ok { messages := [⟨"human", msg⟩, ⟨"ai", resp⟩]
              next_agent := "SCIENTIST"
              final_response := "🔬 " ++ resp } := by
      simp [execNode, scientist_node, lastContent, hsc, Except.map, applyUpdate]
    rw [show (3:Nat) = 2 + 1 from rfl, runGraph_sup_scientist_ok o 2 _ _ hroute h2,
      show (2:Nat) = 1 + 1 from rfl, runGraph_scientist_end]
    simp

theorem chatInvocation_creative (o : Oracles) (msg raw : String)
    (hcl : o.classify msg = .ok raw)
    (hlabel : normalizeDecision raw = "CREATIVE") :
    chatInvocation o msg =
      match o.creativeLLM msg with
      | .error e => ⟨.error e, [.supervisor, .creative], 1, 1⟩
      | .ok resp =>
        ⟨.ok { messages := [⟨"human", msg⟩, ⟨"ai", resp⟩]
               next_agent := "CREATIVE"
               final_response := "🎨 " ++ resp }
         , [.supervisor, .creative], 1, 1⟩ := by
  have h1 := execNode_supervisor_ok o msg raw hcl
  rw [hlabel] at h1
  have hroute : route_to_agent
      { messages := [(⟨"human", msg⟩ : Message)]
        next_agent := "CREATIVE", final_response := "" } = "creative" :=
    route_next_creative _ rfl
  show runGraph o (3 + 1) .START (initialState msg) = _
  rw [runGraph_start_ok o 3 _ _ h1]
  rcases hsc : o.creativeLLM msg with e | resp
  · have h2 : execNode o .creative
        { messages := [(⟨"human", msg⟩ : Message)]
          next_agent := "CREATIVE", final_response := "" } = .error e := by
      simp [execNode, creative_node, lastContent, hsc, Except.map]
    rw [show (3:Nat) = 2 + 1 from rfl, runGraph_sup_creative_error o 2 _ e hroute h2]
    simp
  · have h2 : execNode o .creative
        { messages := [(⟨"human", msg⟩ : Message)]
          next_agent := "CREATIVE", final_response := "" } =
        .ok { messages := [⟨"human", msg⟩, ⟨"ai", resp⟩]
              next_agent := "CREATIVE"
              final_response := "🎨 " ++ resp } := by
      simp [execNode, creative_node, lastContent, hsc, Except.map, applyUpdate]
    rw [show (3:Nat) = 2 + 1 from rfl, runGraph_sup_creative_ok o 2 _ _ hroute h2,
      show (2:Nat) = 1 + 1 from rfl, runGraph_creative_end]
    simp

theorem chatInvocation_coder (o : Oracles) (msg raw : String)
    (hcl : o.classify msg = .ok raw)
    (hlabel : normalizeDecision raw = "CODER") :
    chatInvocation o msg =
      match o.coderLLM msg with
      | .error e => ⟨.error e, [.supervisor, .coder], 1, 1⟩
      | .ok resp =>
        ⟨.ok { messages := [⟨"human", msg⟩, ⟨"ai", resp⟩]
               next_agent := "CODER"
               final_response := "💻 " ++ resp }
         , [.supervisor, .coder], 1, 1⟩ := by
  have h1 := execNode_supervisor_ok o msg raw hcl
  rw [hlabel] at h1
  have hroute : route_to_agent
      { messages := [(⟨"human", msg⟩ : Message)]
        next_agent := "CODER", final_response := "" } = "coder" :=
    route_next_coder _ rfl
  show runGraph o (3 + 1) .START (initialState msg) = _
  rw [runGraph_start_ok o 3 _ _ h1]
  rcases hsc : o.coderLLM msg with e | resp
  · have h2 : execNode o .coder
        { messages := [(⟨"human", msg⟩ : Message)]
          next_agent := "CODER", final_response := "" } = .error e := by
      simp [execNode, coder_node, lastContent, hsc, Except.map]
    rw [show (3:Nat) = 2 + 1 from rfl, runGraph_sup_coder_error o 2 _ e hroute h2]
    simp
  · have h2 : execNode o .coder
        { messages := [(⟨"human", msg⟩ : Message)]
          next_agent := "CODER", final_response := "" } =
        .ok { messages := [⟨"human", msg⟩, ⟨"ai", resp⟩]
              next_agent := "CODER"
              final_response := "💻 " ++ resp } := by
      simp [execNode, coder_node, lastContent, hsc, Except.map, applyUpdate]
    rw [show (3:Nat) = 2 + 1 from rfl, runGraph_sup_coder_ok o 2 _ _ hroute h2,
      show (2:Nat) = 1 + 1 from rfl, runGraph_coder_end]
    simp

/-- A stub LLM client that never fails: each of the four chains returns a
fixed function of its input, as in the spec's stubbed test scenarios. -/
def pureOracles (cl rs rc rk : String → String) : Oracles :=
  ⟨fun x => .ok (cl x), fun x => .ok (rs x), fun x => .ok (rc x), fun x => .ok (rk x)⟩

theorem pyStrip_eq_empty (s : String) (h : ∀ c ∈ s.data, pyIsSpace c) :
    pyStrip s = "" := by
  unfold pyStrip
  have h1 : s.data.dropWhile pyIsSpace = [] := by
    rw [List.dropWhile_eq_nil_iff]
    exact fun c hc => h c hc
  rw [h1]
  rfl

theorem contains_valid_iff (d : String) :
    valid_agents.contains d = true ↔ d ∈ valid_agents := by
  simp [valid_agents, List.contains]

/-! ### Claims -/

/-- C1: for every raw classifier output, the supervisor step first trims
whitespace and upper-cases it; if the normalized result is not exactly one
of SCIENTIST, CREATIVE or CODER it writes the default label SCIENTIST into
the state (the step succeeds rather than failing); in particular the raw
output `"  scientist  "` yields the label SCIENTIST. -/
theorem C1_supervisor_normalizes_with_default (classify : LLM)
    (state : AgentState) (raw : String)
    (h : classify (lastContent state.messages) = .ok raw) :
    supervisor_node classify state =
      .ok ⟨none, some (normalizeDecision raw), none⟩ ∧
    (pyUpper (pyStrip raw) ∈ valid_agents →
      normalizeDecision raw = pyUpper (pyStrip raw)) ∧
    (pyUpper (pyStrip raw) ∉ valid_agents →
      normalizeDecision raw = "SCIENTIST") ∧
    normalizeDecision "  scientist  " = "SCIENTIST" := by
  refine ⟨supervisor_node_ok classify state raw h, ?_, ?_, by decide⟩
  · intro hm
    unfold normalizeDecision
    dsimp only
    rw [if_pos ((contains_valid_iff _).2 hm)]
  · intro hm
    unfold normalizeDecision
    dsimp only
    rw [if_neg (fun hc => hm ((contains_valid_iff _).1 hc))]

theorem C1_witness :
    supervisor_node (fun _ => .ok "  scientist  ") (initialState "q") =
        .ok ⟨none, some (normalizeDecision "  scientist  "), none⟩ ∧
      (pyUpper (pyStrip "  scientist  ") ∈ valid_agents →
        normalizeDecision "  scientist  " = pyUpper (pyStrip "  scientist  ")) ∧
      (pyUpper (pyStrip "  scientist  ") ∉ valid_agents →
        normalizeDecision "  scientist  " = "SCIENTIST") ∧
      normalizeDecision "  scientist  " = "SCIENTIST" :=
  C1_supervisor_normalizes_with_default (fun _ => .ok "  scientist  ")
    (initialState "q") "  scientist  " rfl

/-- C3 counterexample: the claim says every input string other than
SCIENTIST, CREATIVE, CODER routes to the default `"scientist"`, but the
router upper-cases its input first: `"creative"` is not one of the three
labels, yet `route_to_agent` returns `"creative"`, not `"scientist"`. -/
theorem C3_counterexample :
    ("creative" ∉ (["SCIENTIST", "CREATIVE", "CODER"] : List String)) ∧
    route_to_agent ⟨[], "creative", ""⟩ = "creative" ∧
    route_to_agent ⟨[], "creative", ""⟩ ≠ "scientist" := by decide

/-- C3 (amended): the router is a pure total function on strings: for each
of the three valid labels SCIENTIST, CREATIVE, CODER it returns the
correspondingly-named specialist identifier, and for every input string
whose upper-casing is not one of the three labels — including the empty
string — it returns the default `"scientist"`. -/
theorem C3_router_total_with_default :
    (∀ s : AgentState, s.next_agent = "SCIENTIST" →
      route_to_agent s = "scientist") ∧
    (∀ s : AgentState, s.next_agent = "CREATIVE" →
      route_to_agent s = "creative") ∧
    (∀ s : AgentState, s.next_agent = "CODER" →
      route_to_agent s = "coder") ∧
    (∀ s : AgentState,
      pyUpper s.next_agent ∉ (["SCIENTIST", "CREATIVE", "CODER"] : List String) →
      route_to_agent s = "scientist") ∧
    route_to_agent ⟨[], "", ""⟩ = "scientist" := by
  refine ⟨route_next_scientist, route_next_creative, route_next_coder, ?_, by decide⟩
  intro s hm
  have h1 : ¬ (pyUpper s.next_agent = "SCIENTIST") := fun h => hm (by rw [h]; decide)
  have h2 : ¬ (pyUpper s.next_agent = "CREATIVE") := fun h => hm (by rw [h]; decide)
  have h3 : ¬ (pyUpper s.next_agent = "CODER") := fun h => hm (by rw [h]; decide)
  unfold route_to_agent
  dsimp only
  rw [if_neg h1, if_neg h2, if_neg h3]

theorem C3_witness :
    route_to_agent ⟨[], "SCIENTIST", ""⟩ = "scientist" ∧
    route_to_agent ⟨[], "CREATIVE", ""⟩ = "creative" ∧
    route_to_agent ⟨[], "CODER", ""⟩ = "coder" ∧
    route_to_agent ⟨[], "UNKNOWN", ""⟩ = "scientist" ∧
    route_to_agent ⟨[], "", ""⟩ = "scientist" :=
  ⟨C3_router_total_with_default.1 _ rfl,
   C3_router_total_with_default.2.1 _ rfl,
   C3_router_total_with_default.2.2.1 _ rfl,
   C3_router_total_with_default.2.2.2.1 _ (by decide),
   C3_router_total_with_default.2.2.2.2⟩

/-- C9: the router upper-cases its input before the lookup, so it is
case-insensitive independently of the supervisor's normalization: every
casing of a valid label (anything whose upper-casing is the label) routes
to the matching specialist identifier, not to the default branch. -/
theorem C9_router_case_insensitive :
    (∀ s : AgentState, pyUpper s.next_agent = "SCIENTIST" →
      route_to_agent s = "scientist") ∧
    (∀ s : AgentState, pyUpper s.next_agent = "CREATIVE" →
      route_to_agent s = "creative") ∧
    (∀ s : AgentState, pyUpper s.next_agent = "CODER" →
      route_to_agent s = "coder") := by
  refine ⟨?_, ?_, ?_⟩ <;> intro s h <;> unfold route_to_agent <;> rw [h] <;> decide

theorem C9_witness :
    route_to_agent ⟨[], "scientist", ""⟩ = "scientist" ∧
    route_to_agent ⟨[], "Creative", ""⟩ = "creative" ∧
    route_to_agent ⟨[], "cOdEr", ""⟩ = "coder" :=
  ⟨C9_router_case_insensitive.1 _ (by decide),
   C9_router_case_insensitive.2.1 _ (by decide),
   C9_router_case_insensitive.2.2 _ (by decide)⟩

/-- C10: the supervisor step writes only the `next_agent` field: its
update carries no `messages` and no `final_response` component, so merging
it leaves the message sequence and the final response of every input state
unchanged. -/
theorem C10_supervisor_frame (classify : LLM) (s : AgentState)
    (u : StateUpdate) (h : supervisor_node classify s = .ok u) :
    (∃ d, u = ⟨none, some d, none⟩) ∧
    (applyUpdate s u).messages = s.messages ∧
    (applyUpdate s u).final_response = s.final_response := by
  rcases hc : classify (lastContent s.messages) with e | raw
  · rw [supervisor_node_error classify s e hc] at h
    cases h
  · rw [supervisor_node_ok classify s raw hc] at h
    injection h with h2
    subst h2
    exact ⟨⟨normalizeDecision raw, rfl⟩, by simp [applyUpdate], by simp [applyUpdate]⟩

theorem C10_witness :
    (∃ d, (⟨none, some "CODER", none⟩ : StateUpdate) = ⟨none, some d, none⟩) ∧
    (applyUpdate (initialState "x") ⟨none, some "CODER", none⟩).messages =
      (initialState "x").messages ∧
    (applyUpdate (initialState "x") ⟨none, some "CODER", none⟩).final_response =
      (initialState "x").final_response :=
  C10_supervisor_frame (fun _ => .ok "CODER") (initialState "x")
    ⟨none, some "CODER", none⟩ rfl

/-- C2: with a non-failing LLM client, every invocation of the workflow on
a user message executes exactly one supervisor step and then exactly one
specialist step — the execution trace is precisely `[supervisor, t]` for a
single specialist node `t` — so one invocation makes exactly one
classification call plus one specialist call to the LLM client. -/
theorem C2_one_supervisor_then_one_specialist
    (cl rs rc rk : String → String) (msg : String) :
    ∃ t : Node,
      (chatInvocation (pureOracles cl rs rc rk) msg).trace = [.supervisor, t] ∧
      (t = .scientist ∨ t = .creative ∨ t = .coder) ∧
      (chatInvocation (pureOracles cl rs rc rk) msg).classifyCalls = 1 ∧
      (chatInvocation (pureOracles cl rs rc rk) msg).specialistCalls = 1 := by
  rcases normalizeDecision_mem (cl msg) with h | h | h
  · refine ⟨.scientist, ?_⟩
    rw [chatInvocation_scientist (pureOracles cl rs rc rk) msg (cl msg) rfl h]
    simp [pureOracles]
  · refine ⟨.creative, ?_⟩
    rw [chatInvocation_creative (pureOracles cl rs rc rk) msg (cl msg) rfl h]
    simp [pureOracles]
  · refine ⟨.coder, ?_⟩
    rw [chatInvocation_coder (pureOracles cl rs rc rk) msg (cl msg) rfl h]
    simp [pureOracles]

/-- C4: on a successful invocation the workflow returns `{agent_used,
response}` where `agent_used` is the routing label the supervisor wrote
and `response` is the chosen specialist's raw text prefixed with that
specialist's glyph and a space. -/
theorem C4_output_glyph_prefixed (o : Oracles) (msg raw : String)
    (hcl : o.classify msg = .ok raw) :
    (normalizeDecision raw = "SCIENTIST" →
      ∀ resp, o.scientistLLM msg = .ok resp →
        chat_with_agents o msg = .ok ⟨"SCIENTIST", "🔬 " ++ resp⟩) ∧
    (normalizeDecision raw = "CREATIVE" →
      ∀ resp, o.creativeLLM msg = .ok resp →
        chat_with_agents o msg = .ok ⟨"CREATIVE", "🎨 " ++ resp⟩) ∧
    (normalizeDecision raw = "CODER" →
      ∀ resp, o.coderLLM msg = .ok resp →
        chat_with_agents o msg = .ok ⟨"CODER", "💻 " ++ resp⟩) := by
  refine ⟨fun hl resp hresp => ?_, fun hl resp hresp => ?_, fun hl resp hresp => ?_⟩
  · unfold chat_with_agents
    rw [chatInvocation_scientist o msg raw hcl hl, hresp]
  · unfold chat_with_agents
    rw [chatInvocation_creative o msg raw hcl hl, hresp]
  · unfold chat_with_agents
    rw [chatInvocation_coder o msg raw hcl hl, hresp]

theorem C4_witness :
    chat_with_agents
      (pureOracles (fun _ => "SCIENTIST")
        (fun _ => "Photosynthesis converts light into chemical energy.")
        (fun _ => "c") (fun _ => "k"))
      "How does photosynthesis work?" =
    .ok ⟨"SCIENTIST", "🔬 Photosynthesis converts light into chemical energy."⟩ :=
  (C4_output_glyph_prefixed _ "How does photosynthesis work?" "SCIENTIST" rfl).1
    (by decide) _ rfl

/-- C5: a `POST /chat` message that is empty or consists only of
whitespace is rejected with HTTP 400 before any workflow step runs, so
zero calls are made to the LLM client. -/
theorem C5_empty_message_rejected (o : Oracles) (message : String)
    (h : ∀ c ∈ message.data, pyIsSpace c) :
    chatEndpoint o message = .httpError 400 "Message cannot be empty" ∧
    chatEndpointCalls o message = (0, 0) := by
  have hs : pyStrip message = "" := pyStrip_eq_empty message h
  constructor
  · unfold chatEndpoint
    rw [if_pos hs]
  · unfold chatEndpointCalls
    rw [if_pos hs]

theorem C5_witness :
    (chatEndpoint (pureOracles (fun _ => "SCIENTIST") (fun _ => "a")
        (fun _ => "b") (fun _ => "c")) "   " =
      .httpError 400 "Message cannot be empty" ∧
     chatEndpointCalls (pureOracles (fun _ => "SCIENTIST") (fun _ => "a")
        (fun _ => "b") (fun _ => "c")) "   " = (0, 0)) ∧
    (chatEndpoint (pureOracles (fun _ => "SCIENTIST") (fun _ => "a")
        (fun _ => "b") (fun _ => "c")) "" =
      .httpError 400 "Message cannot be empty" ∧
     chatEndpointCalls (pureOracles (fun _ => "SCIENTIST") (fun _ => "a")
        (fun _ => "b") (fun _ => "c")) "" = (0, 0)) :=
  ⟨C5_empty_message_rejected _ "   " (by decide),
   C5_empty_message_rejected _ "" (by decide)⟩

/-- C6: if the classification call fails with an LLM-client error, the
whole invocation fails: the run aborts right after the supervisor step
(zero specialist calls, no partial state is returned) and the `POST /chat`
boundary converts the exception into HTTP 500 carrying the failure's
description. -/
theorem C6_classify_error_aborts (o : Oracles) (msg e : String)
    (hne : pyStrip msg ≠ "")
    (hcl : o.classify msg = .error e) :
    chat_with_agents o msg = .error e ∧
    (chatInvocation o msg).trace = [.supervisor] ∧
    (chatInvocation o msg).specialistCalls = 0 ∧
    chatEndpoint o msg = .httpError 500 e := by
  have hi := chatInvocation_classify_error o msg e hcl
  have hcw : chat_with_agents o msg = .error e := by
    unfold chat_with_agents
    rw [hi]
  refine ⟨hcw, by rw [hi], by rw [hi], ?_⟩
  unfold chatEndpoint
  rw [if_neg hne, hcw]

theorem C6_witness :
    chat_with_agents ⟨fun _ => .error "boom", fun _ => .ok "a",
        fun _ => .ok "b", fun _ => .ok "c"⟩ "hi" = .error "boom" ∧
    (chatInvocation ⟨fun _ => .error "boom", fun _ => .ok "a",
        fun _ => .ok "b", fun _ => .ok "c"⟩ "hi").trace = [.supervisor] ∧
    (chatInvocation ⟨fun _ => .error "boom", fun _ => .ok "a",
        fun _ => .ok "b", fun _ => .ok "c"⟩ "hi").specialistCalls = 0 ∧
    chatEndpoint ⟨fun _ => .error "boom", fun _ => .ok "a",
        fun _ => .ok "b", fun _ => .ok "c"⟩ "hi" = .httpError 500 "boom" :=
  C6_classify_error_aborts _ "hi" "boom" (by decide) rfl

/-- C7: a specialist step performs no error handling of its own: an error
raised by the LLM client inside any specialist node propagates unchanged
out of the node; at workflow level the invocation fails with that very
error (the routing decision already written is discarded) and the
specialist was called exactly once — no retry, no reinterpretation. -/
theorem C7_specialist_error_propagates :
    (∀ (respond : LLM) (state : AgentState) (e : String),
      respond (lastContent state.messages) = .error e →
      scientist_node respond state = .error e ∧
      creative_node respond state = .error e ∧
      coder_node respond state = .error e) ∧
    (∀ (o : Oracles) (msg raw e : String),
      o.classify msg = .ok raw → normalizeDecision raw = "SCIENTIST" →
      o.scientistLLM msg = .error e →
      chat_with_agents o msg = .error e ∧
      (chatInvocation o msg).specialistCalls = 1) := by
  constructor
  · intro respond state e h
    exact ⟨by simp [scientist_node, h], by simp [creative_node, h],
      by simp [coder_node, h]⟩
  · intro o msg raw e hcl hl hsc
    have hi := chatInvocation_scientist o msg raw hcl hl
    rw [hsc] at hi
    simp only [] at hi
    exact ⟨by unfold chat_with_agents; rw [hi], by rw [hi]⟩

theorem C7_witness :
    (scientist_node (fun _ => .error "down") (initialState "q") = .error "down" ∧
     creative_node (fun _ => .error "down") (initialState "q") = .error "down" ∧
     coder_node (fun _ => .error "down") (initialState "q") = .error "down") ∧
    (chat_with_agents ⟨fun _ => .ok "SCIENTIST", fun _ => .error "down",
        fun _ => .ok "b", fun _ => .ok "c"⟩ "q" = .error "down" ∧
     (chatInvocation ⟨fun _ => .ok "SCIENTIST", fun _ => .error "down",
        fun _ => .ok "b", fun _ => .ok "c"⟩ "q").specialistCalls = 1) :=
  ⟨C7_specialist_error_propagates.1 _ (initialState "q") "down" rfl,
   C7_specialist_error_propagates.2 _ "q" "SCIENTIST" "down" rfl (by decide) rfl⟩

/-- C8: the `messages` field is append-only across steps: merging any node
update extends the sequence at the end (the `add_messages` reducer never
removes or reorders), and the final state of a successful invocation holds
exactly the original user message followed by one appended assistant
message. -/
theorem C8_messages_append_only :
    (∀ (s : AgentState) (u : StateUpdate),
      ∃ tail, (applyUpdate s u).messages = s.messages ++ tail) ∧
    (∀ (o : Oracles) (msg : String) (s2 : AgentState),
      (chatInvocation o msg).final = .ok s2 →
      ∃ resp, s2.messages = [⟨"human", msg⟩, ⟨"ai", resp⟩]) := by
  constructor
  · intro s u
    exact ⟨u.messages.getD [], rfl⟩
  · intro o msg s2 hfin
    rcases hcl : o.classify msg with e | raw
    · rw [chatInvocation_classify_error o msg e hcl] at hfin
      cases hfin
    · rcases normalizeDecision_mem raw with hl | hl | hl
      · rw [chatInvocation_scientist o msg raw hcl hl] at hfin
        rcases hsc : o.scientistLLM msg with e2 | resp <;> rw [hsc] at hfin <;>
          simp only [] at hfin
        · cases hfin
        · injection hfin with h2
          subst h2
          exact ⟨resp, rfl⟩
      · rw [chatInvocation_creative o msg raw hcl hl] at hfin
        rcases hsc : o.creativeLLM msg with e2 | resp <;> rw [hsc] at hfin <;>
          simp only [] at hfin
        · cases hfin
        · injection hfin with h2
          subst h2
          exact ⟨resp, rfl⟩
      · rw [chatInvocation_coder o msg raw hcl hl] at hfin
        rcases hsc : o.coderLLM msg with e2 | resp <;> rw [hsc] at hfin <;>
          simp only [] at hfin
        · cases hfin
        · injection hfin with h2
          subst h2
          exact ⟨resp, rfl⟩

theorem C8_witness :
    (∃ tail, (applyUpdate (initialState "q")
        ⟨some [⟨"ai", "a"⟩], none, none⟩).messages =
      (initialState "q").messages ++ tail) ∧
    (∃ resp, ({ messages := [⟨"human", "q"⟩, ⟨"ai", "a"⟩]
                next_agent := "SCIENTIST"
                final_response := "🔬 a" } : AgentState).messages =
      [⟨"human", "q"⟩, ⟨"ai", resp⟩]) :=
  ⟨C8_messages_append_only.1 _ _,
   C8_messages_append_only.2
     (pureOracles (fun _ => "SCIENTIST") (fun _ => "a")
       (fun _ => "b") (fun _ => "c")) "q" _ rfl⟩

end Agentbuild
